import Mathlib

/-!
Shallow embedding of the alumni-records backend (Express + Mongoose).

The definitions below are translated from the repository sources:
  src/routes/alumni.js    (the handlers wired by src/server.js)
  src/controllers/alumni.js
  src/controllers/auth.js
  src/models/alumni.js, src/models/user.js

Modelling conventions:
  - JavaScript `undefined`/`null` string values are `Option String` with
    `none`; the JS `||` operator on strings treats both `none` and the
    empty string as falsy (helpers `jsOrS`, `jsOrO`).
  - A multipart nested field may arrive absent, as a structured object,
    or as a string; a string is passed to `JSON.parse`, whose outcome is
    represented by the `JsonField` inductive (`goodString` carries the
    parsed object, `badString` is a string that fails to parse).
  - The document store is a `List AlumniRecord`; `findOne`/`findById`
    are `List.find?`, `deleteOne` erases the first match, inserts append.
  - `Date.now()` and assigned ids are explicit parameters.
-/

/-- JavaScript `a || b` where `a` is an optional string and `b` a string:
`undefined`, `null` and `""` are falsy. -/
def jsOrS (a : Option String) (b : String) : String :=
  match a with
  | some s => if s = "" then b else s
  | none => b

/-- JavaScript `a || b` where both sides are optional strings. -/
def jsOrO (a b : Option String) : Option String :=
  match a with
  | some s => if s = "" then b else some s
  | none => b

/-- Truthiness of an optional string: present and non-empty. -/
def truthy (o : Option String) : Bool :=
  match o with
  | some s => s ≠ ""
  | none => false

/-- Nested sub-document `contactDetails` of the alumni schema
(src/models/alumni.js). -/
structure ContactDetails where
  email : Option String
  phone : Option String
  address : Option String
deriving Repr, DecidableEq

/-- Nested sub-document `qualifiedExams` of the alumni schema. -/
structure QualifiedExams where
  examName : Option String
  rollNumber : Option String
  certificateUrl : Option String
deriving Repr, DecidableEq

/-- Nested sub-document `employment` of the alumni schema. -/
structure Employment where
  type : Option String
  employerName : Option String
  employerContact : Option String
  employerEmail : Option String
  documentUrl : Option String
  selfEmploymentDetails : Option String
deriving Repr, DecidableEq

/-- Nested sub-document `higherEducation` of the alumni schema. -/
structure HigherEducation where
  institutionName : Option String
  programName : Option String
  documentUrl : Option String
deriving Repr, DecidableEq

def emptyContact : ContactDetails := ⟨none, none, none⟩
def emptyQualifiedExams : QualifiedExams := ⟨none, none, none⟩
def emptyEmployment : Employment := ⟨none, none, none, none, none, none⟩
def emptyHigherEducation : HigherEducation := ⟨none, none, none⟩

/-- A stored alumni document (src/models/alumni.js, the revision with
`basicInfoImageUrl`, `createdBy`, `createdAt`, `updatedAt`). Timestamps
are modelled as naturals, ids as naturals. -/
structure AlumniRecord where
  id : Nat
  name : String
  academicUnit : String
  program : String
  passingYear : String
  registrationNumber : String
  contactDetails : ContactDetails
  qualifiedExams : QualifiedExams
  employment : Employment
  higherEducation : HigherEducation
  basicInfoImageUrl : Option String
  createdBy : Option Nat
  createdAt : Nat
  updatedAt : Option Nat
deriving Repr, DecidableEq

/-- Outcome of feeding a multipart nested field through the
`typeof x === "string" / JSON.parse / catch` block of the route handlers:
the field is absent, arrived as a structured object, arrived as a string
that `JSON.parse` turns into an object, or arrived as a string that
`JSON.parse` rejects. -/
inductive JsonField (α : Type) where
  | absent
  | obj (o : α)
  | goodString (o : α)
  | badString
deriving Repr, DecidableEq

/-- Value of the nested-field variable after the parse-and-swallow block
(src/routes/alumni.js lines 233-267 and 350-384): an object arrives
unchanged, a string is parsed, a string that fails to parse becomes the
empty object, an absent field stays `undefined` (`none`). -/
def normalizeField {α : Type} (empty : α) : JsonField α → Option α
  | .absent => none
  | .obj o => some o
  | .goodString o => some o
  | .badString => some empty

/-- Multipart request body of the routes-layer create and update
handlers. `academicUnit` can be supplied by the client but is never read
by these handlers. -/
structure AlumniBody where
  name : Option String
  academicUnit : Option String
  program : Option String
  passingYear : Option String
  registrationNumber : Option String
  contactDetails : JsonField ContactDetails
  qualifiedExams : JsonField QualifiedExams
  employment : JsonField Employment
  higherEducation : JsonField HigherEducation
deriving Repr, DecidableEq

/-- The three multer file fields (src/routes/alumni.js lines 32-36);
`some url` is the Cloudinary path of a completed upload. -/
structure UploadedFiles where
  basicInfoImage : Option String
  qualificationImage : Option String
  employmentImage : Option String
deriving Repr, DecidableEq

def noFiles : UploadedFiles := ⟨none, none, none⟩

/-- Constant academic unit forced by the routes layer
(src/routes/alumni.js lines 53, 288, 396). -/
def hsstUnit : String := "Himalayan School of Science and Technology"

/-- Duplicate-registration message of the create and update handlers. -/
def dupMsg : String := "Alumni with this registration number already exists"

/-- Validation of the four `express-validator` checks on create
(src/routes/alumni.js lines 212-215): each required field present and
non-empty. -/
def requiredOk (b : AlumniBody) : Bool :=
  truthy b.name && truthy b.program && truthy b.passingYear && truthy b.registrationNumber

/-- Response of the routes-layer create handler. -/
inductive CreateResp where
  | validationError
  | duplicateKey (msg : String)
  | serverError (msg : String)
  | created (r : AlumniRecord)
deriving Repr, DecidableEq

/-- HTTP status attached to each create response path. -/
def CreateResp.statusCode : CreateResp → Nat
  | .validationError => 400
  | .duplicateKey _ => 400
  | .serverError _ => 500
  | .created _ => 200

/-- Create-handler result: the response plus the store after the call. -/
structure CreateOut where
  resp : CreateResp
  store : List AlumniRecord
deriving Repr, DecidableEq

/-- The document constructed by `new Alumni({...})` in the create handler
(src/routes/alumni.js lines 286-307). -/
def newAlumniRecord (b : AlumniBody) (files : UploadedFiles) (userId : Nat)
    (newId : Nat) (now : Nat) : AlumniRecord :=
  let contactN := normalizeField emptyContact b.contactDetails
  let qeN := normalizeField emptyQualifiedExams b.qualifiedExams
  let empN := normalizeField emptyEmployment b.employment
  let heN := normalizeField emptyHigherEducation b.higherEducation
  { id := newId
    name := (b.name).getD ""
    academicUnit := hsstUnit
    program := (b.program).getD ""
    passingYear := (b.passingYear).getD ""
    registrationNumber := (b.registrationNumber).getD ""
    contactDetails := contactN.getD emptyContact
    qualifiedExams :=
      { (qeN.getD emptyQualifiedExams) with
        certificateUrl :=
          some (jsOrS files.qualificationImage
            (jsOrS (qeN.bind (fun q => q.certificateUrl)) "")) }
    employment :=
      { (empN.getD emptyEmployment) with
        documentUrl :=
          some (jsOrS files.employmentImage
            (jsOrS (empN.bind (fun q => q.documentUrl)) "")) }
    higherEducation :=
      { (heN.getD emptyHigherEducation) with
        documentUrl :=
          some (jsOrS files.basicInfoImage
            (jsOrS (heN.bind (fun q => q.documentUrl)) "")) }
    basicInfoImageUrl := files.basicInfoImage
    createdBy := some userId
    createdAt := now
    updatedAt := none }

/-- Routes-layer create handler, POST /api/alumni
(src/routes/alumni.js lines 207-321). `storeAtCheck` is the store
snapshot seen by the `findOne` pre-check, `storeAtSave` the snapshot the
`save()` runs against (they coincide when no concurrent writer
intervenes). The `unique: true` index on `registrationNumber`
(src/models/alumni.js) makes `save()` throw when a duplicate exists at
save time; the catch block maps every save error to a 500 response. -/
def createAlumniRoute (b : AlumniBody) (files : UploadedFiles) (userId : Nat)
    (storeAtCheck storeAtSave : List AlumniRecord) (newId : Nat) (now : Nat) : CreateOut :=
  if ¬ requiredOk b then ⟨.validationError, storeAtSave⟩
  else
    let reg := (b.registrationNumber).getD ""
    if storeAtCheck.any (fun r => r.registrationNumber = reg) then
      ⟨.duplicateKey dupMsg, storeAtSave⟩
    else
      let newAlumni := newAlumniRecord b files userId newId now
      if storeAtSave.any (fun r => r.registrationNumber = reg) then
        ⟨.serverError "Failed to create alumni: E11000 duplicate key error", storeAtSave⟩
      else
        ⟨.created newAlumni, storeAtSave ++ [newAlumni]⟩

/-- Response of the routes-layer update handler. -/
inductive UpdateResp where
  | notFound
  | duplicateKey (msg : String)
  | updated (r : AlumniRecord)
deriving Repr, DecidableEq

/-- HTTP status attached to each update response path. -/
def UpdateResp.statusCode : UpdateResp → Nat
  | .notFound => 404
  | .duplicateKey _ => 400
  | .updated _ => 200

/-- Record carried by a successful update response, if any. -/
def UpdateResp.record? : UpdateResp → Option AlumniRecord
  | .updated r => some r
  | _ => none

/-- Update-handler result: the response plus the store after the call. -/
structure UpdateOut where
  resp : UpdateResp
  store : List AlumniRecord
deriving Repr, DecidableEq

/-- The `updateFields` object of the routes-layer update handler applied
to the found document (src/routes/alumni.js lines 394-420), as stored by
`findByIdAndUpdate`: every listed top-level path is replaced. Note the
nested objects are built by spreading `payloadField || alumni.field` and
then overriding the document-URL leaf with the fallback chain. -/
def updateFieldsRecord (alumni : AlumniRecord) (b : AlumniBody)
    (files : UploadedFiles) (now : Nat) : AlumniRecord :=
  let contactN := normalizeField emptyContact b.contactDetails
  let qeN := normalizeField emptyQualifiedExams b.qualifiedExams
  let empN := normalizeField emptyEmployment b.employment
  let heN := normalizeField emptyHigherEducation b.higherEducation
  { alumni with
    name := jsOrS b.name alumni.name
    academicUnit := hsstUnit
    program := jsOrS b.program alumni.program
    passingYear := jsOrS b.passingYear alumni.passingYear
    registrationNumber := jsOrS b.registrationNumber alumni.registrationNumber
    contactDetails := contactN.getD alumni.contactDetails
    qualifiedExams :=
      { (qeN.getD alumni.qualifiedExams) with
        certificateUrl :=
          some (jsOrS files.qualificationImage
            (jsOrS (qeN.bind (fun q => q.certificateUrl))
              (jsOrS alumni.qualifiedExams.certificateUrl ""))) }
    employment :=
      { (empN.getD alumni.employment) with
        documentUrl :=
          some (jsOrS files.employmentImage
            (jsOrS (empN.bind (fun q => q.documentUrl))
              (jsOrS alumni.employment.documentUrl ""))) }
    higherEducation :=
      { (heN.getD alumni.higherEducation) with
        documentUrl :=
          some (jsOrS files.basicInfoImage
            (jsOrS (heN.bind (fun q => q.documentUrl))
              (jsOrS alumni.higherEducation.documentUrl ""))) }
    basicInfoImageUrl := jsOrO files.basicInfoImage alumni.basicInfoImageUrl
    updatedAt := some now }

/-- Routes-layer update handler, PUT /api/alumni/:id
(src/routes/alumni.js lines 326-435): find by id (404 when absent),
duplicate pre-check when a truthy different registration number is
supplied, then `findByIdAndUpdate` with `updateFields`. -/
def updateAlumniRoute (id : Nat) (b : AlumniBody) (files : UploadedFiles)
    (store : List AlumniRecord) (now : Nat) : UpdateOut :=
  match store.find? (fun r => r.id == id) with
  | none => ⟨.notFound, store⟩
  | some alumni =>
    if truthy b.registrationNumber
        && (b.registrationNumber).getD "" ≠ alumni.registrationNumber
        && store.any (fun r => r.registrationNumber = (b.registrationNumber).getD "") then
      ⟨.duplicateKey dupMsg, store⟩
    else
      let updated := updateFieldsRecord alumni b files now
      ⟨.updated updated, store.map (fun r => if r.id = id then updated else r)⟩

/-- Response of the routes-layer delete handler. -/
inductive DeleteResp where
  | notFound
  | removed
deriving Repr, DecidableEq

/-- HTTP status attached to each delete response path. -/
def DeleteResp.statusCode : DeleteResp → Nat
  | .notFound => 404
  | .removed => 200

/-- Delete-handler result: the response plus the store after the call. -/
structure DeleteOut where
  resp : DeleteResp
  store : List AlumniRecord
deriving Repr, DecidableEq

/-- Routes-layer delete handler, DELETE /api/alumni/:id
(src/routes/alumni.js lines 440-462): `findById`, 404 when absent, else
`deleteOne({ _id })`, which removes the first (unique) match. -/
def deleteAlumniRoute (id : Nat) (store : List AlumniRecord) : DeleteOut :=
  match store.find? (fun r => r.id == id) with
  | none => ⟨.notFound, store⟩
  | some _ => ⟨.removed, store.eraseP (fun r => r.id == id)⟩

/-- Case-insensitive substring test over character lists; first argument
is the pattern. Models an unanchored `$regex` with `$options: "i"` on a
pattern without metacharacters. -/
def charsStartWith : List Char → List Char → Bool
  | [], _ => true
  | _ :: _, [] => false
  | a :: as, b :: bs => a = b && charsStartWith as bs

def charsContain (p : List Char) : List Char → Bool
  | [] => charsStartWith p []
  | c :: rest => charsStartWith p (c :: rest) || charsContain p rest

/-- Character-level lowercase map; `String.toLowerCase` is modelled at
the character-list level so that terms evaluate by kernel reduction. -/
def lowerChars (cs : List Char) : List Char := cs.map Char.toLower

def lowerStr (s : String) : String := ⟨lowerChars s.toList⟩

def strContainsCI (s pat : String) : Bool :=
  charsContain (lowerChars pat.toList) (lowerChars s.toList)

/-- JavaScript `Number.parseInt(x) || d`: an absent or non-numeric value
(`NaN`) and `0` are falsy and give the default. Negative parseInt
results are outside this model. -/
def jsNum (o : Option Nat) (d : Nat) : Nat :=
  match o with
  | some n => if n = 0 then d else n
  | none => d

/-- Query string of GET /api/alumni. `academicUnit` can be supplied by
the client but is never read by the routes handler. -/
structure ListQuery where
  page : Option Nat
  limit : Option Nat
  passingYear : Option String
  program : Option String
  academicUnit : Option String
deriving Repr, DecidableEq

/-- Filter built by the list handler (src/routes/alumni.js lines 50-61):
the academic unit is always the HSST constant; `passingYear` is an
equality filter when truthy and not "all"; `program` is a
case-insensitive substring filter when truthy. -/
def matchesListFilter (q : ListQuery) (r : AlumniRecord) : Bool :=
  r.academicUnit = hsstUnit
  && (if truthy q.passingYear && (q.passingYear).getD "" ≠ "all" then
        r.passingYear = (q.passingYear).getD "" else true)
  && (if truthy q.program then strContainsCI r.program ((q.program).getD "") else true)

/-- Sort key of `.sort({ createdAt: -1 })`: descending creation time. -/
def createdDesc (a b : AlumniRecord) : Prop := b.createdAt ≤ a.createdAt

instance : DecidableRel createdDesc :=
  fun a b => inferInstanceAs (Decidable (b.createdAt ≤ a.createdAt))

instance : IsTotal AlumniRecord createdDesc :=
  ⟨fun a b => by unfold createdDesc; exact Nat.le_total _ _⟩

instance : IsTrans AlumniRecord createdDesc :=
  ⟨fun _ _ _ hab hbc => by unfold createdDesc at *; exact Nat.le_trans hbc hab⟩

/-- Pagination metadata of the list response. `totalPages` embeds
`Math.ceil(total / limit)`, which for a positive integer limit equals
`(total + limit - 1) / limit` in integer arithmetic. -/
structure PaginationMeta where
  total : Nat
  page : Nat
  limit : Nat
  totalPages : Nat
deriving Repr, DecidableEq

/-- Body of the list response. -/
structure ListResponse where
  data : List AlumniRecord
  pagination : PaginationMeta
deriving Repr, DecidableEq

/-- Routes-layer list handler, GET /api/alumni
(src/routes/alumni.js lines 43-82): count matching documents, fetch the
page sorted by `createdAt` descending with `skip`/`limit`, and report
pagination metadata. -/
def getAlumniRoute (q : ListQuery) (store : List AlumniRecord) : ListResponse :=
  let page := jsNum q.page 1
  let limit := jsNum q.limit 10
  let skip := (page - 1) * limit
  let filtered := store.filter (matchesListFilter q)
  let total := filtered.length
  let sorted := List.insertionSort createdDesc filtered
  { data := (sorted.drop skip).take limit
    pagination :=
      { total := total
        page := page
        limit := limit
        totalPages := (total + limit - 1) / limit } }

/-- Query string of GET /api/alumni/search. `academicUnit` can be
supplied by the client but is never read by the routes handler. -/
structure SearchQuery where
  query : Option String
  academicUnit : Option String
deriving Repr, DecidableEq

/-- Filter built by the search handler (src/routes/alumni.js lines
92-103): the HSST constant plus, for a truthy query, a case-insensitive
substring match on name, registration number or program. -/
def matchesSearchFilter (q : SearchQuery) (r : AlumniRecord) : Bool :=
  r.academicUnit = hsstUnit
  && (if truthy q.query then
        strContainsCI r.name ((q.query).getD "")
        || strContainsCI r.registrationNumber ((q.query).getD "")
        || strContainsCI r.program ((q.query).getD "")
      else true)

/-- Routes-layer search handler, GET /api/alumni/search
(src/routes/alumni.js lines 87-113): all matches, sorted by `createdAt`
descending, no pagination. -/
def searchAlumniRoute (q : SearchQuery) (store : List AlumniRecord) : List AlumniRecord :=
  List.insertionSort createdDesc (store.filter (matchesSearchFilter q))

/-- Rounded percentage `Math.round((num / den) * 100)` for `den > 0`;
the JavaScript floating-point computation is modelled as exact rational
rounding (round half up). -/
def pctRound (num den : Nat) : Nat := (num * 100 * 2 + den) / (2 * den)

/-- Body of the stats response (src/routes/alumni.js lines 165-171);
`byAcademicUnit` is the single-key map carrying the total. -/
structure StatsResponse where
  totalAlumni : Nat
  byAcademicUnitHsst : Nat
  byPassingYear : List (String × Nat)
  employmentRate : Nat
  higherEducationRate : Nat
deriving Repr, DecidableEq

/-- Group-by-passingYear aggregation restricted to the filtered records
(src/routes/alumni.js lines 131-135 and 158-163): distinct years in
ascending order with their counts; a falsy (empty) year key is dropped
when the response object is assembled. -/
def statsByPassingYear (l : List AlumniRecord) : List (String × Nat) :=
  ((List.insertionSort (fun a b => a ≤ b) ((l.map (fun r => r.passingYear)).dedup)).filterMap
    (fun y => if y = "" then none else some (y, l.countP (fun r => r.passingYear = y))))

/-- Routes-layer stats handler, GET /api/alumni/stats
(src/routes/alumni.js lines 119-179): every count is restricted to the
HSST filter. -/
def getStatsRoute (store : List AlumniRecord) : StatsResponse :=
  let filtered := store.filter (fun r => r.academicUnit = hsstUnit)
  let totalAlumni := filtered.length
  let employedCount := store.countP
    (fun r => r.academicUnit = hsstUnit && r.employment.type = some "Employed")
  let higherEducationCount := store.countP
    (fun r => r.academicUnit = hsstUnit
      && r.higherEducation.institutionName ≠ none
      && r.higherEducation.institutionName ≠ some "")
  { totalAlumni := totalAlumni
    byAcademicUnitHsst := totalAlumni
    byPassingYear := statsByPassingYear filtered
    employmentRate := if totalAlumni > 0 then pctRound employedCount totalAlumni else 0
    higherEducationRate :=
      if totalAlumni > 0 then pctRound higherEducationCount totalAlumni else 0 }

/-- Controller-layer update handler `updateAlumni`
(src/controllers/alumni.js lines 113-149), kept for comparison with the
wired routes handler: scalars fall back with `||`, and each nested
object present in the JSON body is assigned wholesale. The body arrives
through `express.json`, so nested fields are objects or absent. -/
structure AlumniBodyJson where
  name : Option String
  academicUnit : Option String
  program : Option String
  passingYear : Option String
  registrationNumber : Option String
  contactDetails : Option ContactDetails
  qualifiedExams : Option QualifiedExams
  employment : Option Employment
  higherEducation : Option HigherEducation
deriving Repr, DecidableEq

def updateAlumni (id : Nat) (b : AlumniBodyJson) (store : List AlumniRecord)
    (now : Nat) : UpdateOut :=
  match store.find? (fun r => r.id == id) with
  | none => ⟨.notFound, store⟩
  | some alumni =>
    let updated :=
      { alumni with
        name := jsOrS b.name alumni.name
        academicUnit := jsOrS b.academicUnit alumni.academicUnit
        program := jsOrS b.program alumni.program
        passingYear := jsOrS b.passingYear alumni.passingYear
        registrationNumber := jsOrS b.registrationNumber alumni.registrationNumber
        qualifiedExams := (b.qualifiedExams).getD alumni.qualifiedExams
        employment := (b.employment).getD alumni.employment
        higherEducation := (b.higherEducation).getD alumni.higherEducation
        contactDetails := (b.contactDetails).getD alumni.contactDetails
        updatedAt := some now }
    ⟨.updated updated, store.map (fun r => if r.id = id then updated else r)⟩

/-- Notification settings assigned at registration
(src/controllers/auth.js lines 56-60). -/
structure NotificationSettings where
  email : Bool
  browser : Bool
deriving Repr, DecidableEq

/-- Privacy settings assigned at registration. -/
structure PrivacySettings where
  showEmail : Bool
  showProfile : Bool
deriving Repr, DecidableEq

/-- Appearance settings assigned at registration. -/
structure AppearanceSettings where
  theme : String
  fontSize : String
deriving Repr, DecidableEq

/-- User settings block. -/
structure UserSettings where
  notifications : NotificationSettings
  privacy : PrivacySettings
  appearance : AppearanceSettings
deriving Repr, DecidableEq

/-- A stored user document (src/models/user.js). The password is stored
as supplied; the bcrypt pre-save hashing is outside this model. -/
structure User where
  id : Nat
  name : String
  email : String
  password : String
  role : String
  settings : UserSettings
deriving Repr, DecidableEq

/-- Declared default of the `role` path in the user schema
(src/models/user.js lines 20-24). -/
def userSchemaRoleDefault : String := "user"

/-- Declared enum of the `role` path in the user schema. -/
def userSchemaRoleEnum : List String := ["admin", "user"]

/-- Scan for a character list with no whitespace. -/
def noWsChars (cs : List Char) : Bool := cs.all (fun c => !c.isWhitespace)

/-- Scan for a dot that is not the last character of the list. -/
def dotNotLast : List Char → Bool
  | [] => false
  | [_] => false
  | c :: rest => c = '.' || dotNotLast rest

/-- Test for the registration email pattern `[^ws@]+@[^ws@]+[.][^ws@]+`
anchored at both ends (src/controllers/auth.js line 36): exactly one at
sign, a non-empty whitespace-free local part, and a whitespace-free
domain containing a dot that is neither its first nor its last
character. -/
def emailOk (e : String) : Bool :=
  match e.toList.splitOn '@' with
  | [before, after] =>
    before ≠ [] && noWsChars before && noWsChars after
      && (match after with
          | [] => false
          | _ :: rest => dotNotLast rest)
  | _ => false

/-- Response of the registration handler. -/
inductive RegisterResp where
  | missingFields
  | invalidEmail
  | userExists
  | created (u : User) (respRole : String)
deriving Repr, DecidableEq

/-- HTTP status attached to each registration response path. -/
def RegisterResp.statusCode : RegisterResp → Nat
  | .missingFields => 400
  | .invalidEmail => 400
  | .userExists => 400
  | .created _ _ => 201

/-- Registration result: the response plus the users after the call. -/
structure RegisterOut where
  resp : RegisterResp
  users : List User
deriving Repr, DecidableEq

/-- Registration handler `registerUser`
(src/controllers/auth.js lines 24-95): field presence check, email
format check, case-insensitive existing-user check (the anchored
case-insensitive regex is modelled as lowercase equality), then
`User.create` with `role: "admin"` set explicitly; the 201 response body
reports `user.role`. -/
def registerUser (name email password : Option String) (users : List User)
    (newId : Nat) : RegisterOut :=
  if ¬ (truthy name && truthy email && truthy password) then
    ⟨.missingFields, users⟩
  else if ¬ emailOk (email.getD "") then
    ⟨.invalidEmail, users⟩
  else if users.any (fun u => lowerStr u.email = lowerStr (email.getD "")) then
    ⟨.userExists, users⟩
  else
    let u : User :=
      { id := newId
        name := name.getD ""
        email := lowerStr (email.getD "")
        password := password.getD ""
        role := "admin"
        settings :=
          { notifications := { email := true, browser := false }
            privacy := { showEmail := false, showProfile := true }
            appearance := { theme := "system", fontSize := "medium" } } }
    ⟨.created u u.role, users ++ [u]⟩

/-! Concrete sample inputs shared by witnesses and counterexamples. -/

/-- Sample stored employment block. -/
def sampleEmployment : Employment :=
  { emptyEmployment with type := some "Employed", employerName := some "Acme" }

/-- Sample stored record. -/
def rec1 : AlumniRecord :=
  { id := 1
    name := "Jane Doe"
    academicUnit := hsstUnit
    program := "B.Tech CS"
    passingYear := "2019-20"
    registrationNumber := "REG-001"
    contactDetails := emptyContact
    qualifiedExams := { emptyQualifiedExams with certificateUrl := some "https://img.example/cert.png" }
    employment := sampleEmployment
    higherEducation := emptyHigherEducation
    basicInfoImageUrl := none
    createdBy := some 1
    createdAt := 1
    updatedAt := none }

/-- Body with every field absent. -/
def bodyEmpty : AlumniBody :=
  { name := none, academicUnit := none, program := none, passingYear := none
    registrationNumber := none, contactDetails := .absent, qualifiedExams := .absent
    employment := .absent, higherEducation := .absent }

/-- Body of a valid create request for registration number REG-001. -/
def bodyJane : AlumniBody :=
  { bodyEmpty with
    name := some "Jane Doe", program := some "B.Tech CS"
    passingYear := some "2019-20", registrationNumber := some "REG-001" }

/-- Body of a valid create request for a fresh registration number. -/
def bodyFresh : AlumniBody :=
  { bodyJane with name := some "John Roe", registrationNumber := some "REG-002" }

/-- User produced by a sample successful registration. -/
def sampleUser : User :=
  { id := 1
    name := "Jane"
    email := "jane@example.com"
    password := "pw123"
    role := "admin"
    settings :=
      { notifications := { email := true, browser := false }
        privacy := { showEmail := false, showProfile := true }
        appearance := { theme := "system", fontSize := "medium" } } }

/-- Update body supplying a new name and a different academic unit. -/
def bodyC6w : AlumniBody :=
  { bodyEmpty with name := some "Janet", academicUnit := some "School of Management" }

/-- Record produced by the routes update of `rec1` with `bodyC6w`. -/
def recC6w : AlumniRecord := updateFieldsRecord rec1 bodyC6w noFiles 7

/-- Update body whose employment field is a string rejected by
`JSON.parse`. -/
def bodyC7w : AlumniBody := { bodyEmpty with employment := .badString }

/-- Record produced by the routes update of `rec1` with `bodyC7w`. -/
def recC7w : AlumniRecord := updateFieldsRecord rec1 bodyC7w noFiles 7

/-- Create body whose employment field is a string rejected by
`JSON.parse`. -/
def bodyC7c : AlumniBody := { bodyJane with employment := .badString }

/-- Files of an upload carrying a new qualification image. -/
def filesC3 : UploadedFiles :=
  { basicInfoImage := none
    qualificationImage := some "https://new.example/q.png"
    employmentImage := none }

/-- Update body carrying a payload certificate URL. -/
def bodyC3 : AlumniBody :=
  { bodyEmpty with
    qualifiedExams := JsonField.obj
      { emptyQualifiedExams with certificateUrl := some "https://payload.example/q.png" } }

/-- Record produced by the routes update of `rec1` with `bodyC3` and the
uploaded qualification image. -/
def recC3 : AlumniRecord := updateFieldsRecord rec1 bodyC3 filesC3 7

/-- Record produced by the routes update of `rec1` with `bodyC3` and no
uploaded files. -/
def recC3b : AlumniRecord := updateFieldsRecord rec1 bodyC3 noFiles 7

/-- Record produced by the routes create of `bodyJane` with no files. -/
def recC3new : AlumniRecord := newAlumniRecord bodyJane noFiles 1 2 9

/-- Further stored records for pagination samples. -/
def rec2 : AlumniRecord :=
  { rec1 with id := 2, registrationNumber := "REG-002", createdAt := 2 }

def rec3 : AlumniRecord :=
  { rec1 with id := 3, registrationNumber := "REG-003", createdAt := 3 }

def storeC5 : List AlumniRecord := [rec1, rec2, rec3]

/-- List query asking for page 2 with page size 2 and no filters. -/
def qC5 : ListQuery :=
  { page := some 2, limit := some 2, passingYear := none, program := none
    academicUnit := none }

/-! Helper lemmas shared across claims. -/

/-- When ids are pairwise distinct, erasing the first record with a
given id is the same as filtering that id out. -/
theorem eraseP_id_eq_filter (id : Nat) :
    ∀ store : List AlumniRecord, store.Pairwise (fun a b => a.id ≠ b.id) →
      store.eraseP (fun r => r.id == id) = store.filter (fun r => !(r.id == id))
  | [], _ => rfl
  | a :: l, h => by
    rcases List.pairwise_cons.mp h with ⟨ha, hl⟩
    by_cases hid : a.id = id
    · have hfl : List.filter (fun r => !(r.id == id)) l = l :=
        List.filter_eq_self.mpr (fun b hb => by
          simp only [Bool.not_eq_true', beq_eq_false_iff_ne]
          exact fun hbid => (ha b hb) (by rw [hid, hbid]))
      rw [List.eraseP_cons, List.filter_cons]
      simp [hid, hfl]
    · have hb : (a.id == id) = false := by simpa using hid
      rw [List.eraseP_cons, List.filter_cons]
      simp [hb, eraseP_id_eq_filter id l hl]

/-- On a successful routes update the returned record is exactly the
`updateFields` object applied to the found document. -/
theorem updated_record_eq (id : Nat) (b : AlumniBody) (files : UploadedFiles)
    (store : List AlumniRecord) (now : Nat) (alumni u : AlumniRecord)
    (hfind : store.find? (fun r => r.id == id) = some alumni)
    (hresp : (updateAlumniRoute id b files store now).resp = .updated u) :
    u = updateFieldsRecord alumni b files now := by
  unfold updateAlumniRoute at hresp
  rw [hfind] at hresp
  split at hresp
  · simp at hresp
  · rename_i a heq
    injection heq with heq
    subst heq
    split at hresp
    · simp at hresp
    · simp only [UpdateResp.updated.injEq] at hresp
      exact hresp.symm

/-- C8: deleting an id that is not in the store (including an already
deleted id) answers NotFound with HTTP 404 and leaves the store
unchanged; deleting an existing id removes exactly that record and no
other, and a second delete of the same id answers NotFound. -/
theorem claim_C8_delete_safe (id : Nat) (store : List AlumniRecord)
    (huniq : store.Pairwise (fun a b => a.id ≠ b.id)) :
    ((∀ r ∈ store, r.id ≠ id) →
        deleteAlumniRoute id store = ⟨.notFound, store⟩
      ∧ (deleteAlumniRoute id store).resp.statusCode = 404)
    ∧ (∀ r ∈ store, r.id = id →
        (deleteAlumniRoute id store).resp = .removed
      ∧ (deleteAlumniRoute id store).store = store.filter (fun r => !(r.id == id))
      ∧ (deleteAlumniRoute id store).store.length + 1 = store.length
      ∧ r ∉ (deleteAlumniRoute id store).store
      ∧ (∀ r2 ∈ store, r2.id ≠ id → r2 ∈ (deleteAlumniRoute id store).store)
      ∧ (deleteAlumniRoute id (deleteAlumniRoute id store).store).resp = .notFound) := by
  constructor
  · intro habs
    have hfind : store.find? (fun r => r.id == id) = none := by
      apply List.find?_eq_none.mpr
      intro x hx
      simpa using habs x hx
    constructor
    · unfold deleteAlumniRoute
      rw [hfind]
    · unfold deleteAlumniRoute
      rw [hfind]
      rfl
  · intro r hr hrid
    have hsome : (store.find? (fun r => r.id == id)).isSome := by
      rw [List.find?_isSome]
      exact ⟨r, hr, by simp [hrid]⟩
    obtain ⟨a, hfa⟩ := Option.isSome_iff_exists.mp hsome
    have hstore : (deleteAlumniRoute id store).store
        = store.filter (fun r => !(r.id == id)) := by
      unfold deleteAlumniRoute
      rw [hfa]
      exact eraseP_id_eq_filter id store huniq
    have hresp : (deleteAlumniRoute id store).resp = .removed := by
      unfold deleteAlumniRoute
      rw [hfa]
    refine ⟨hresp, hstore, ?_, ?_, ?_, ?_⟩
    · rw [hstore, ← eraseP_id_eq_filter id store huniq,
        List.length_eraseP_of_mem hr (by simp [hrid])]
      exact Nat.sub_add_cancel (List.length_pos_of_mem hr)
    · rw [hstore]
      intro hmem
      have := (List.mem_filter.mp hmem).2
      simp [hrid] at this
    · intro r2 hr2 hr2id
      rw [hstore]
      exact List.mem_filter.mpr ⟨hr2, by simp [hr2id]⟩
    · rw [hstore]
      have hnone : (store.filter (fun r => !(r.id == id))).find?
          (fun r => r.id == id) = none := by
        apply List.find?_eq_none.mpr
        intro x hx
        have := (List.mem_filter.mp hx).2
        simpa using this
      unfold deleteAlumniRoute
      rw [hnone]

/-- Witness for C8 at a concrete store and id. -/
theorem claim_C8_delete_safe_witness :
    List.Pairwise (fun a b : AlumniRecord => a.id ≠ b.id) [rec1]
    ∧ ((deleteAlumniRoute 1 [rec1]).resp = .removed
      ∧ (deleteAlumniRoute 1 [rec1]).store = [rec1].filter (fun r => !(r.id == 1))
      ∧ (deleteAlumniRoute 1 [rec1]).store.length + 1 = ([rec1] : List AlumniRecord).length
      ∧ rec1 ∉ (deleteAlumniRoute 1 [rec1]).store
      ∧ (∀ r2 ∈ [rec1], r2.id ≠ 1 → r2 ∈ (deleteAlumniRoute 1 [rec1]).store)
      ∧ (deleteAlumniRoute 1 (deleteAlumniRoute 1 [rec1]).store).resp = .notFound) :=
  ⟨by simp, (claim_C8_delete_safe 1 [rec1] (by simp)).2 rec1 (by simp) rfl⟩

/-- C2: with a single store snapshot (no concurrent writer), a valid
create whose registration number already occurs in the store answers the
duplicate-registration message with HTTP 400 and inserts nothing, while
a valid create with a fresh registration number succeeds and appends the
persisted record. -/
theorem claim_C2_create_unique (b : AlumniBody) (files : UploadedFiles)
    (userId : Nat) (store : List AlumniRecord) (newId now : Nat)
    (hreq : requiredOk b = true) :
    (store.any (fun r => r.registrationNumber = (b.registrationNumber).getD "") = true →
        (createAlumniRoute b files userId store store newId now).resp = .duplicateKey dupMsg
      ∧ (createAlumniRoute b files userId store store newId now).resp.statusCode = 400
      ∧ (createAlumniRoute b files userId store store newId now).store = store)
    ∧ (store.any (fun r => r.registrationNumber = (b.registrationNumber).getD "") = false →
        (createAlumniRoute b files userId store store newId now).resp
          = .created (newAlumniRecord b files userId newId now)
      ∧ (createAlumniRoute b files userId store store newId now).store
          = store ++ [newAlumniRecord b files userId newId now]) := by
  constructor
  · intro hdup
    unfold createAlumniRoute
    simp [hreq, hdup, CreateResp.statusCode]
  · intro hfresh
    unfold createAlumniRoute
    simp [hreq, hfresh]

/-- Witness for C2 on both branches: a duplicate create against a store
holding REG-001 and a fresh create against the same store. -/
theorem claim_C2_create_unique_witness :
    (requiredOk bodyJane = true
      ∧ ((createAlumniRoute bodyJane noFiles 1 [rec1] [rec1] 2 9).resp = .duplicateKey dupMsg
        ∧ (createAlumniRoute bodyJane noFiles 1 [rec1] [rec1] 2 9).resp.statusCode = 400
        ∧ (createAlumniRoute bodyJane noFiles 1 [rec1] [rec1] 2 9).store = [rec1]))
    ∧ (requiredOk bodyFresh = true
      ∧ ((createAlumniRoute bodyFresh noFiles 1 [rec1] [rec1] 2 9).resp
          = .created (newAlumniRecord bodyFresh noFiles 1 2 9)
        ∧ (createAlumniRoute bodyFresh noFiles 1 [rec1] [rec1] 2 9).store
          = [rec1] ++ [newAlumniRecord bodyFresh noFiles 1 2 9])) :=
  ⟨⟨by decide,
    (claim_C2_create_unique bodyJane noFiles 1 [rec1] 2 9 (by decide)).1 (by decide)⟩,
   ⟨by decide,
    (claim_C2_create_unique bodyFresh noFiles 1 [rec1] 2 9 (by decide)).2 (by decide)⟩⟩

/-- C9: every successful registration creates a user whose role is the
string "admin", assigned explicitly by the handler although the user
schema declares "user" as the default role, and the 201 response body
reports exactly that role. -/
theorem claim_C9_register_admin_role (name email password : Option String)
    (users : List User) (newId : Nat) (u : User) (respRole : String)
    (h : (registerUser name email password users newId).resp = .created u respRole) :
    u.role = "admin" ∧ respRole = "admin"
    ∧ userSchemaRoleDefault = "user" ∧ ("admin" : String) ≠ userSchemaRoleDefault
    ∧ "admin" ∈ userSchemaRoleEnum := by
  unfold registerUser at h
  split at h
  · simp at h
  · split at h
    · simp at h
    · split at h
      · simp at h
      · simp only [RegisterResp.created.injEq] at h
        obtain ⟨hu, hrr⟩ := h
        subst hu
        subst hrr
        refine ⟨rfl, rfl, rfl, by decide, by simp [userSchemaRoleEnum]⟩

/-- Witness for C9 at a concrete successful registration. -/
theorem claim_C9_register_admin_role_witness :
    (registerUser (some "Jane") (some "jane@example.com") (some "pw123") [] 1).resp
      = .created sampleUser "admin"
    ∧ (sampleUser.role = "admin" ∧ "admin" = "admin"
      ∧ userSchemaRoleDefault = "user" ∧ ("admin" : String) ≠ userSchemaRoleDefault
      ∧ "admin" ∈ userSchemaRoleEnum) :=
  ⟨by decide,
   claim_C9_register_admin_role (some "Jane") (some "jane@example.com") (some "pw123")
     [] 1 sampleUser "admin" (by decide)⟩

/-- C4 (failing input): when the duplicate pre-check passes against its
snapshot but the store already holds the registration number at save
time (a concurrent writer won the race), the create handler's catch-all
maps the uniqueness rejection thrown by `save()` to an HTTP 500 generic
failure message, not to the HTTP 400 duplicate-key response the design
requires. -/
theorem claim_C4_race_maps_to_500 :
    (createAlumniRoute bodyJane noFiles 1 [] [rec1] 2 9).resp
      = .serverError "Failed to create alumni: E11000 duplicate key error"
    ∧ (createAlumniRoute bodyJane noFiles 1 [] [rec1] 2 9).resp.statusCode = 500
    ∧ (createAlumniRoute bodyJane noFiles 1 [] [rec1] 2 9).resp.statusCode ≠ 400
    ∧ (createAlumniRoute bodyJane noFiles 1 [] [rec1] 2 9).resp
      ≠ .duplicateKey dupMsg := by
  refine ⟨by decide, by decide, by decide, by decide⟩

/-- C1 (failing input): updating a record whose stored employment is
`{type: "Employed", employerName: "Acme"}` with the payload
`{employment: {type: "Unemployed"}}` erases `employerName` in both the
wired routes handler (which spreads the payload object) and the
controller-layer `updateAlumni` (which assigns the nested object
wholesale); the claimed field-by-field merge would have kept "Acme". -/
theorem claim_C1_nested_merge_is_wholesale :
    rec1.employment.type = some "Employed"
    ∧ rec1.employment.employerName = some "Acme"
    ∧ ((updateAlumniRoute 1
          { bodyEmpty with employment := .obj { emptyEmployment with type := some "Unemployed" } }
          noFiles [rec1] 7).resp.record?.map
        (fun r => (r.employment.type, r.employment.employerName)))
      = some (some "Unemployed", none)
    ∧ ((updateAlumni 1
          { name := none, academicUnit := none, program := none, passingYear := none
            registrationNumber := none, contactDetails := none, qualifiedExams := none
            employment := some { emptyEmployment with type := some "Unemployed" }
            higherEducation := none }
          [rec1] 7).resp.record?.map
        (fun r => (r.employment.type, r.employment.employerName)))
      = some (some "Unemployed", none) := by
  refine ⟨by decide, by decide, by decide, by decide⟩

/-- C6 (counterexample): the routes update handler does not overwrite
`academicUnit` with the payload value; it always stores the HSST
constant. -/
theorem claim_C6_counterexample :
    ((updateAlumniRoute 1 { bodyEmpty with academicUnit := some "School of Management" }
        noFiles [rec1] 7).resp.record?.map (fun r => r.academicUnit))
      = some hsstUnit
    ∧ hsstUnit ≠ "School of Management" :=
  ⟨by decide, by decide⟩

/-- C6 (amended): on a successful routes update, each of name, program,
passingYear and registrationNumber present in the payload with a
non-empty value is overwritten with the payload value, and a field that
is absent or empty keeps its prior stored value; `academicUnit` is
always set to the HSST constant regardless of the payload. -/
theorem claim_C6_scalar_update (id : Nat) (b : AlumniBody) (files : UploadedFiles)
    (store : List AlumniRecord) (now : Nat) (alumni u : AlumniRecord)
    (hfind : store.find? (fun r => r.id == id) = some alumni)
    (hresp : (updateAlumniRoute id b files store now).resp = .updated u) :
    ((∀ v, b.name = some v → v ≠ "" → u.name = v)
      ∧ (b.name = none → u.name = alumni.name)
      ∧ (b.name = some "" → u.name = alumni.name))
    ∧ ((∀ v, b.program = some v → v ≠ "" → u.program = v)
      ∧ (b.program = none → u.program = alumni.program)
      ∧ (b.program = some "" → u.program = alumni.program))
    ∧ ((∀ v, b.passingYear = some v → v ≠ "" → u.passingYear = v)
      ∧ (b.passingYear = none → u.passingYear = alumni.passingYear)
      ∧ (b.passingYear = some "" → u.passingYear = alumni.passingYear))
    ∧ ((∀ v, b.registrationNumber = some v → v ≠ "" → u.registrationNumber = v)
      ∧ (b.registrationNumber = none → u.registrationNumber = alumni.registrationNumber)
      ∧ (b.registrationNumber = some "" → u.registrationNumber = alumni.registrationNumber))
    ∧ u.academicUnit = hsstUnit := by
  unfold updateAlumniRoute at hresp
  rw [hfind] at hresp
  split at hresp
  · simp at hresp
  · rename_i a heq
    injection heq with heq
    subst heq
    split at hresp
    · simp at hresp
    · simp only [UpdateResp.updated.injEq] at hresp
      subst hresp
      refine ⟨⟨?_, ?_, ?_⟩, ⟨?_, ?_, ?_⟩, ⟨?_, ?_, ?_⟩, ⟨?_, ?_, ?_⟩, ?_⟩ <;>
        first
        | (intro v hv hne; simp [updateFieldsRecord, jsOrS, hv, hne])
        | (intro hv; simp [updateFieldsRecord, jsOrS, hv])
        | simp [updateFieldsRecord]

/-- Witness for C6 at a concrete record and payload. -/
theorem claim_C6_scalar_update_witness :
    ([rec1].find? (fun r => r.id == 1) = some rec1)
    ∧ (updateAlumniRoute 1 bodyC6w noFiles [rec1] 7).resp = .updated recC6w
    ∧ recC6w.name = "Janet"
    ∧ recC6w.program = rec1.program
    ∧ recC6w.academicUnit = hsstUnit :=
  ⟨by decide, by decide,
   (claim_C6_scalar_update 1 bodyC6w noFiles [rec1] 7 rec1 recC6w
      (by decide) (by decide)).1.1 "Janet" rfl (by decide),
   (claim_C6_scalar_update 1 bodyC6w noFiles [rec1] 7 rec1 recC6w
      (by decide) (by decide)).2.1.2.1 rfl,
   (claim_C6_scalar_update 1 bodyC6w noFiles [rec1] 7 rec1 recC6w
      (by decide) (by decide)).2.2.2.2⟩

/-- C7 (counterexample): on update, a malformed JSON string for a nested
field is not treated like an absent field: the stored nested object's
prior sub-field values are lost (here `employerName`, previously
"Acme"), because the swallowed parse failure leaves an empty object,
which is truthy and replaces the stored object. -/
theorem claim_C7_counterexample :
    ((updateAlumniRoute 1 { bodyEmpty with employment := .badString }
        noFiles [rec1] 7).resp.record?.map (fun r => r.employment.employerName))
      = some none
    ∧ rec1.employment.employerName = some "Acme" :=
  ⟨by decide, by decide⟩

/-- C7 (amended): a malformed nested-field string never produces an
error response: the parse failure is swallowed and the field becomes an
empty object. On create this is equivalent to the field being absent; on
update the empty object replaces the stored nested object, so every
prior sub-field value is lost except the document URL, which survives
through the fallback chain. -/
theorem claim_C7_parse_failure_swallowed :
    (∀ id b files store now alumni u,
      store.find? (fun r => r.id == id) = some alumni →
      (updateAlumniRoute id b files store now).resp = .updated u →
        ((b.employment = .badString →
          u.employment = { emptyEmployment with
            documentUrl := some (jsOrS files.employmentImage
              (jsOrS alumni.employment.documentUrl "")) })
        ∧ (b.contactDetails = .badString → u.contactDetails = emptyContact)
        ∧ (b.qualifiedExams = .badString →
          u.qualifiedExams = { emptyQualifiedExams with
            certificateUrl := some (jsOrS files.qualificationImage
              (jsOrS alumni.qualifiedExams.certificateUrl "")) })
        ∧ (b.higherEducation = .badString →
          u.higherEducation = { emptyHigherEducation with
            documentUrl := some (jsOrS files.basicInfoImage
              (jsOrS alumni.higherEducation.documentUrl "")) })))
    ∧ (∀ b files uid sc ss nid now,
        (b.employment = .badString →
          createAlumniRoute b files uid sc ss nid now
            = createAlumniRoute { b with employment := .absent } files uid sc ss nid now)
      ∧ (b.contactDetails = .badString →
          createAlumniRoute b files uid sc ss nid now
            = createAlumniRoute { b with contactDetails := .absent } files uid sc ss nid now)
      ∧ (b.qualifiedExams = .badString →
          createAlumniRoute b files uid sc ss nid now
            = createAlumniRoute { b with qualifiedExams := .absent } files uid sc ss nid now)
      ∧ (b.higherEducation = .badString →
          createAlumniRoute b files uid sc ss nid now
            = createAlumniRoute { b with higherEducation := .absent } files uid sc ss nid now)) := by
  constructor
  · intro id b files store now alumni u hfind hresp
    have hu := updated_record_eq id b files store now alumni u hfind hresp
    subst hu
    refine ⟨?_, ?_, ?_, ?_⟩ <;>
      (intro hb;
        simp [updateFieldsRecord, normalizeField, hb, jsOrS, emptyEmployment,
          emptyContact, emptyQualifiedExams, emptyHigherEducation])
  · intro b files uid sc ss nid now
    obtain ⟨n, au, pr, py, rn, cd, qe, em, he⟩ := b
    refine ⟨?_, ?_, ?_, ?_⟩ <;> (intro hb; subst hb; rfl)

/-- Witness for C7: the update branch at a concrete record and the
create branch at a concrete body. -/
theorem claim_C7_parse_failure_swallowed_witness :
    ([rec1].find? (fun r => r.id == 1) = some rec1)
    ∧ (updateAlumniRoute 1 bodyC7w noFiles [rec1] 7).resp = .updated recC7w
    ∧ bodyC7w.employment = .badString
    ∧ recC7w.employment = { emptyEmployment with
        documentUrl := some (jsOrS noFiles.employmentImage
          (jsOrS rec1.employment.documentUrl "")) }
    ∧ createAlumniRoute bodyC7c noFiles 1 [] [] 2 9
        = createAlumniRoute { bodyC7c with employment := .absent } noFiles 1 [] [] 2 9 :=
  ⟨by decide, by decide, rfl,
   (claim_C7_parse_failure_swallowed.1 1 bodyC7w noFiles [rec1] 7 rec1 recC7w
      (by decide) (by decide)).1 rfl,
   (claim_C7_parse_failure_swallowed.2 bodyC7c noFiles 1 [] [] 2 9).1 rfl⟩

/-- On a successful routes create the returned record is exactly the
document built by `new Alumni({...})`. -/
theorem created_record_eq (b : AlumniBody) (files : UploadedFiles)
    (uid : Nat) (sc ss : List AlumniRecord) (nid now : Nat) (u : AlumniRecord)
    (hresp : (createAlumniRoute b files uid sc ss nid now).resp = .created u) :
    u = newAlumniRecord b files uid nid now := by
  unfold createAlumniRoute at hresp
  split at hresp
  · simp at hresp
  · dsimp only at hresp
    split at hresp
    · simp at hresp
    · split at hresp
      · simp at hresp
      · simp only [CreateResp.created.injEq] at hresp
        exact hresp.symm

/-- C3: for each of the three document fields, an uploaded file URL wins
over a URL in the parsed payload object, which wins over the previously
stored URL; when neither a file nor a payload URL is supplied, update
keeps the stored URL while create falls back to the empty string. -/
theorem claim_C3_file_url_precedence (id : Nat) (b : AlumniBody) (files : UploadedFiles)
    (store : List AlumniRecord) (now : Nat) (alumni u : AlumniRecord)
    (hfind : store.find? (fun r => r.id == id) = some alumni)
    (hresp : (updateAlumniRoute id b files store now).resp = .updated u) :
    ((∀ f, files.qualificationImage = some f → f ≠ "" →
        u.qualifiedExams.certificateUrl = some f)
      ∧ (∀ v, files.qualificationImage = none →
        (normalizeField emptyQualifiedExams b.qualifiedExams).bind
          (fun q => q.certificateUrl) = some v → v ≠ "" →
        u.qualifiedExams.certificateUrl = some v)
      ∧ (∀ p, files.qualificationImage = none →
        (normalizeField emptyQualifiedExams b.qualifiedExams).bind
          (fun q => q.certificateUrl) = none →
        alumni.qualifiedExams.certificateUrl = some p →
        u.qualifiedExams.certificateUrl = some p))
    ∧ ((∀ f, files.employmentImage = some f → f ≠ "" →
        u.employment.documentUrl = some f)
      ∧ (∀ v, files.employmentImage = none →
        (normalizeField emptyEmployment b.employment).bind
          (fun q => q.documentUrl) = some v → v ≠ "" →
        u.employment.documentUrl = some v)
      ∧ (∀ p, files.employmentImage = none →
        (normalizeField emptyEmployment b.employment).bind
          (fun q => q.documentUrl) = none →
        alumni.employment.documentUrl = some p →
        u.employment.documentUrl = some p))
    ∧ ((∀ f, files.basicInfoImage = some f → f ≠ "" →
        u.higherEducation.documentUrl = some f)
      ∧ (∀ v, files.basicInfoImage = none →
        (normalizeField emptyHigherEducation b.higherEducation).bind
          (fun q => q.documentUrl) = some v → v ≠ "" →
        u.higherEducation.documentUrl = some v)
      ∧ (∀ p, files.basicInfoImage = none →
        (normalizeField emptyHigherEducation b.higherEducation).bind
          (fun q => q.documentUrl) = none →
        alumni.higherEducation.documentUrl = some p →
        u.higherEducation.documentUrl = some p))
    ∧ (∀ b2 files2 uid sc ss nid now2 u2,
        (createAlumniRoute b2 files2 uid sc ss nid now2).resp = .created u2 →
        ((∀ f, files2.qualificationImage = some f → f ≠ "" →
            u2.qualifiedExams.certificateUrl = some f)
          ∧ (∀ v, files2.qualificationImage = none →
            (normalizeField emptyQualifiedExams b2.qualifiedExams).bind
              (fun q => q.certificateUrl) = some v → v ≠ "" →
            u2.qualifiedExams.certificateUrl = some v)
          ∧ (files2.qualificationImage = none →
            (normalizeField emptyQualifiedExams b2.qualifiedExams).bind
              (fun q => q.certificateUrl) = none →
            u2.qualifiedExams.certificateUrl = some ""))
        ∧ ((∀ f, files2.employmentImage = some f → f ≠ "" →
            u2.employment.documentUrl = some f)
          ∧ (∀ v, files2.employmentImage = none →
            (normalizeField emptyEmployment b2.employment).bind
              (fun q => q.documentUrl) = some v → v ≠ "" →
            u2.employment.documentUrl = some v)
          ∧ (files2.employmentImage = none →
            (normalizeField emptyEmployment b2.employment).bind
              (fun q => q.documentUrl) = none →
            u2.employment.documentUrl = some ""))
        ∧ ((∀ f, files2.basicInfoImage = some f → f ≠ "" →
            u2.higherEducation.documentUrl = some f)
          ∧ (∀ v, files2.basicInfoImage = none →
            (normalizeField emptyHigherEducation b2.higherEducation).bind
              (fun q => q.documentUrl) = some v → v ≠ "" →
            u2.higherEducation.documentUrl = some v)
          ∧ (files2.basicInfoImage = none →
            (normalizeField emptyHigherEducation b2.higherEducation).bind
              (fun q => q.documentUrl) = none →
            u2.higherEducation.documentUrl = some ""))) := by
  have hu := updated_record_eq id b files store now alumni u hfind hresp
  subst hu
  refine ⟨⟨fun f hf hne => ?_, fun v hf hp hne => ?_, fun p hf hp hprior => ?_⟩,
    ⟨fun f hf hne => ?_, fun v hf hp hne => ?_, fun p hf hp hprior => ?_⟩,
    ⟨fun f hf hne => ?_, fun v hf hp hne => ?_, fun p hf hp hprior => ?_⟩,
    fun b2 files2 uid sc ss nid now2 u2 hresp2 => ?_⟩
  · simp [updateFieldsRecord, jsOrS, hf, hne]
  · simp [updateFieldsRecord, jsOrS, hf, hp, hne]
  · simp [updateFieldsRecord, jsOrS, hf, hp, hprior]
    rcases eq_or_ne p "" with h | h <;> simp [h]
  · simp [updateFieldsRecord, jsOrS, hf, hne]
  · simp [updateFieldsRecord, jsOrS, hf, hp, hne]
  · simp [updateFieldsRecord, jsOrS, hf, hp, hprior]
    rcases eq_or_ne p "" with h | h <;> simp [h]
  · simp [updateFieldsRecord, jsOrS, hf, hne]
  · simp [updateFieldsRecord, jsOrS, hf, hp, hne]
  · simp [updateFieldsRecord, jsOrS, hf, hp, hprior]
    rcases eq_or_ne p "" with h | h <;> simp [h]
  · have hu2 := created_record_eq b2 files2 uid sc ss nid now2 u2 hresp2
    subst hu2
    refine ⟨⟨fun f hf hne => ?_, fun v hf hp hne => ?_, fun hf hp => ?_⟩,
      ⟨fun f hf hne => ?_, fun v hf hp hne => ?_, fun hf hp => ?_⟩,
      ⟨fun f hf hne => ?_, fun v hf hp hne => ?_, fun hf hp => ?_⟩⟩
    · simp [newAlumniRecord, jsOrS, hf, hne]
    · simp [newAlumniRecord, jsOrS, hf, hp, hne]
    · simp [newAlumniRecord, jsOrS, hf, hp]
    · simp [newAlumniRecord, jsOrS, hf, hne]
    · simp [newAlumniRecord, jsOrS, hf, hp, hne]
    · simp [newAlumniRecord, jsOrS, hf, hp]
    · simp [newAlumniRecord, jsOrS, hf, hne]
    · simp [newAlumniRecord, jsOrS, hf, hp, hne]
    · simp [newAlumniRecord, jsOrS, hf, hp]

/-- Witness for C3: the file URL wins on a concrete update, the payload
URL wins when no file is uploaded, and a concrete create with neither
stores the empty string. -/
theorem claim_C3_file_url_precedence_witness :
    ([rec1].find? (fun r => r.id == 1) = some rec1)
    ∧ (updateAlumniRoute 1 bodyC3 filesC3 [rec1] 7).resp = .updated recC3
    ∧ recC3.qualifiedExams.certificateUrl = some "https://new.example/q.png"
    ∧ (updateAlumniRoute 1 bodyC3 noFiles [rec1] 7).resp = .updated recC3b
    ∧ recC3b.qualifiedExams.certificateUrl = some "https://payload.example/q.png"
    ∧ (createAlumniRoute bodyJane noFiles 1 [] [] 2 9).resp = .created recC3new
    ∧ recC3new.qualifiedExams.certificateUrl = some "" :=
  ⟨by decide, by decide,
   (claim_C3_file_url_precedence 1 bodyC3 filesC3 [rec1] 7 rec1 recC3
      (by decide) (by decide)).1.1 "https://new.example/q.png" rfl (by decide),
   by decide,
   (claim_C3_file_url_precedence 1 bodyC3 noFiles [rec1] 7 rec1 recC3b
      (by decide) (by decide)).1.2.1 "https://payload.example/q.png" rfl (by decide) (by decide),
   by decide,
   ((claim_C3_file_url_precedence 1 bodyC3 noFiles [rec1] 7 rec1 recC3b
      (by decide) (by decide)).2.2.2 bodyJane noFiles 1 [] [] 2 9 recC3new
      (by decide)).1.2.2 rfl (by decide)⟩

/-- C5: for an explicit page p of at least 1 and page size s of at least
1, the list handler returns min s (N - (p-1)s) records (with truncated
subtraction, so 0 when the page starts past the end), where N is the
number of records matching the filter; the reported total is N and the
reported totalPages is the ceiling of N divided by s; the returned page
is sorted by creation time descending. -/
theorem claim_C5_pagination (store : List AlumniRecord) (q : ListQuery) (p s : Nat)
    (hp : q.page = some p) (hp1 : 1 ≤ p) (hs : q.limit = some s) (hs1 : 1 ≤ s) :
    (getAlumniRoute q store).data.length
      = min s ((store.filter (matchesListFilter q)).length - (p - 1) * s)
    ∧ (getAlumniRoute q store).pagination.total
      = (store.filter (matchesListFilter q)).length
    ∧ (getAlumniRoute q store).pagination.totalPages
      = (store.filter (matchesListFilter q)).length ⌈/⌉ s
    ∧ List.Sorted createdDesc (getAlumniRoute q store).data := by
  have hp0 : ¬ p = 0 := by omega
  have hs0 : ¬ s = 0 := by omega
  have hpage : jsNum q.page 1 = p := by simp [jsNum, hp, hp0]
  have hlimit : jsNum q.limit 10 = s := by simp [jsNum, hs, hs0]
  refine ⟨?_, ?_, ?_, ?_⟩
  · simp [getAlumniRoute, hpage, hlimit, List.length_take, List.length_drop,
      List.length_insertionSort]
  · simp [getAlumniRoute, hpage, hlimit]
  · simp [getAlumniRoute, hpage, hlimit, Nat.ceilDiv_eq_add_pred_div]
  · show List.Sorted createdDesc
      (((List.insertionSort createdDesc (store.filter (matchesListFilter q))).drop
        ((jsNum q.page 1 - 1) * jsNum q.limit 10)).take (jsNum q.limit 10))
    exact List.Pairwise.sublist
      ((List.take_sublist _ _).trans (List.drop_sublist _ _))
      (List.sorted_insertionSort createdDesc _)

/-- Witness for C5: a store of three matching records, page 2 of size 2,
returning one record with totalPages 2. -/
theorem claim_C5_pagination_witness :
    qC5.page = some 2 ∧ (1 : Nat) ≤ 2 ∧ qC5.limit = some 2
    ∧ ((getAlumniRoute qC5 storeC5).data.length
        = min 2 ((storeC5.filter (matchesListFilter qC5)).length - (2 - 1) * 2)
      ∧ (getAlumniRoute qC5 storeC5).pagination.total
        = (storeC5.filter (matchesListFilter qC5)).length
      ∧ (getAlumniRoute qC5 storeC5).pagination.totalPages
        = (storeC5.filter (matchesListFilter qC5)).length ⌈/⌉ 2
      ∧ List.Sorted createdDesc (getAlumniRoute qC5 storeC5).data) :=
  ⟨rfl, by decide, rfl,
   claim_C5_pagination storeC5 qC5 2 2 rfl (by decide) rfl (by decide)⟩

/-- C10: every record returned by a successful routes-layer create or
update carries the constant HSST academic unit regardless of the
payload; every record returned by the routes list and search handlers
matches that constant, and both handlers ignore a client-supplied
academicUnit query parameter; the stats handler computes the same
response on the store restricted to the constant, so records of other
academic units never influence it. -/
theorem claim_C10_hsst_restriction :
    (∀ b files uid sc ss nid now u,
        (createAlumniRoute b files uid sc ss nid now).resp = .created u →
        u.academicUnit = hsstUnit)
    ∧ (∀ id b files store now u,
        (updateAlumniRoute id b files store now).resp = .updated u →
        u.academicUnit = hsstUnit)
    ∧ (∀ q store r, r ∈ (getAlumniRoute q store).data → r.academicUnit = hsstUnit)
    ∧ (∀ q store a, getAlumniRoute { q with academicUnit := a } store = getAlumniRoute q store)
    ∧ (∀ q store r, r ∈ searchAlumniRoute q store → r.academicUnit = hsstUnit)
    ∧ (∀ q store a,
        searchAlumniRoute { q with academicUnit := a } store = searchAlumniRoute q store)
    ∧ (∀ store, getStatsRoute store
        = getStatsRoute (store.filter (fun r => r.academicUnit = hsstUnit))) := by
  have hff : ∀ l : List AlumniRecord,
      (l.filter (fun r => r.academicUnit = hsstUnit)).filter
        (fun r => r.academicUnit = hsstUnit)
      = l.filter (fun r => r.academicUnit = hsstUnit) := by
    intro l
    simp [List.filter_filter]
  have hcount : ∀ (pred : AlumniRecord → Bool) (l : List AlumniRecord),
      (∀ r, pred r = true → r.academicUnit = hsstUnit) →
      (l.filter (fun r => r.academicUnit = hsstUnit)).countP pred = l.countP pred := by
    intro pred l himp
    rw [List.countP_filter]
    congr 1
    funext r
    by_cases hpr : pred r = true
    · simp [hpr, himp r hpr]
    · simp [Bool.eq_false_iff.mpr hpr]
  refine ⟨?_, ?_, ?_, ?_, ?_, ?_, ?_⟩
  · intro b files uid sc ss nid now u h
    have hu := created_record_eq b files uid sc ss nid now u h
    subst hu
    simp [newAlumniRecord]
  · intro id b files store now u h
    rcases hopt : store.find? (fun r => r.id == id) with _ | a
    · unfold updateAlumniRoute at h
      rw [hopt] at h
      simp at h
    · have hu := updated_record_eq id b files store now a u hopt h
      subst hu
      simp [updateFieldsRecord]
  · intro q store r hr
    unfold getAlumniRoute at hr
    dsimp only at hr
    have h1 : r ∈ List.insertionSort createdDesc (store.filter (matchesListFilter q)) :=
      List.drop_subset _ _ (List.take_subset _ _ hr)
    have h2 : r ∈ store.filter (matchesListFilter q) :=
      (List.perm_insertionSort createdDesc _).mem_iff.mp h1
    have h3 := List.of_mem_filter h2
    simp only [matchesListFilter, Bool.and_eq_true, decide_eq_true_eq] at h3
    exact h3.1.1
  · intro q store a
    cases q
    rfl
  · intro q store r hr
    have h2 : r ∈ store.filter (matchesSearchFilter q) :=
      (List.perm_insertionSort createdDesc _).mem_iff.mp hr
    have h3 := List.of_mem_filter h2
    simp only [matchesSearchFilter, Bool.and_eq_true, decide_eq_true_eq] at h3
    exact h3.1
  · intro q store a
    cases q
    rfl
  · intro store
    unfold getStatsRoute
    dsimp only
    rw [hff store]
    rw [hcount (fun r => r.academicUnit = hsstUnit && r.employment.type = some "Employed")
      store (by intro r hr; simpa using (Bool.and_eq_true _ _ |>.mp hr).1)]
    rw [hcount (fun r => r.academicUnit = hsstUnit
        && r.higherEducation.institutionName ≠ none
        && r.higherEducation.institutionName ≠ some "") store
      (by intro r hr
          have := (Bool.and_eq_true _ _ |>.mp ((Bool.and_eq_true _ _ |>.mp hr).1)).1
          simpa using this)]

/-- Witness for C10 at a concrete create and a concrete store. -/
theorem claim_C10_hsst_restriction_witness :
    (createAlumniRoute bodyJane noFiles 1 [] [] 2 9).resp = .created recC3new
    ∧ recC3new.academicUnit = hsstUnit
    ∧ getStatsRoute storeC5
        = getStatsRoute (storeC5.filter (fun r => r.academicUnit = hsstUnit)) :=
  ⟨by decide,
   claim_C10_hsst_restriction.1 bodyJane noFiles 1 [] [] 2 9 recC3new (by decide),
   claim_C10_hsst_restriction.2.2.2.2.2.2 storeC5⟩
